import Mathlib

/-!
Shallow embedding of the hipFFT rocFFT-backend shim
(`library/src/amd_detail/hipfft.cpp` plus the declarations in
`library/include/hipfftXt.h`).

Modelling conventions:
* Pointers (`void*`, `void**`, buffer and handle pointers) are `Nat`, with `0`
  standing for `nullptr`; pointer equality is `Nat` equality.
* The opaque rocFFT backend ("create plan", "get work buffer size", execute,
  allocator) is a parameter record of oracles; a backend call that the source
  checks for failure is modelled by a `Bool` oracle field.
* C++ `size_t` values are `Nat` (the source only ever feeds them non-negative
  values that it has validated first).
* Machine enums are Lean inductives.  `hipDataType` is an enum of the HIP
  runtime with more members than the six the source recognises; the source's
  `switch` statements send every other member to `default`, so the embedding
  collapses all of those members into one constructor `HIP_DATATYPE_OTHER`.
-/

/-- Result codes of the public API (hipfftResult_t). -/
inductive hipfftResult where
  | HIPFFT_SUCCESS
  | HIPFFT_INVALID_PLAN
  | HIPFFT_ALLOC_FAILED
  | HIPFFT_INVALID_TYPE
  | HIPFFT_INVALID_VALUE
  | HIPFFT_INTERNAL_ERROR
  | HIPFFT_EXEC_FAILED
  | HIPFFT_SETUP_FAILED
  | HIPFFT_INVALID_SIZE
  | HIPFFT_PARSE_ERROR
  | HIPFFT_NOT_IMPLEMENTED
  | HIPFFT_NOT_SUPPORTED
  deriving DecidableEq, Repr

/-- HIP runtime data types.  The six FFT-relevant members are explicit;
`HIP_DATATYPE_OTHER` stands for every remaining member of the HIP enum
(`HIP_R_8I`, `HIP_C_8I`, ...), all of which reach the `default` label of the
switch in `hipfftIOType::init`. -/
inductive hipDataType where
  | HIP_R_16F
  | HIP_C_16F
  | HIP_R_32F
  | HIP_C_32F
  | HIP_R_64F
  | HIP_C_64F
  | HIP_DATATYPE_OTHER
  deriving DecidableEq, Repr

/-- rocFFT precision enum. -/
inductive rocfft_precision where
  | half
  | single
  | double
  deriving DecidableEq, Repr

/-- rocFFT transform-type enum. -/
inductive rocfft_transform_type where
  | complex_forward
  | complex_inverse
  | real_forward
  | real_inverse
  deriving DecidableEq, Repr

/-- rocFFT array-type enum (the members the shim uses). -/
inductive rocfft_array_type where
  | complex_interleaved
  | hermitian_interleaved
  | real
  deriving DecidableEq, Repr

/-- rocFFT placement enum. -/
inductive rocfft_placement where
  | inplace
  | notinplace
  deriving DecidableEq, Repr

/-- Callback kinds from hipfftXt.h (hipfftXtCallbackType_t). -/
inductive hipfftXtCallbackType where
  | HIPFFT_CB_LD_COMPLEX
  | HIPFFT_CB_LD_COMPLEX_DOUBLE
  | HIPFFT_CB_LD_REAL
  | HIPFFT_CB_LD_REAL_DOUBLE
  | HIPFFT_CB_ST_COMPLEX
  | HIPFFT_CB_ST_COMPLEX_DOUBLE
  | HIPFFT_CB_ST_REAL
  | HIPFFT_CB_ST_REAL_DOUBLE
  | HIPFFT_CB_UNDEFINED
  deriving DecidableEq, Repr

/-- Direction constant from hipfft.h (cuFFT-compatible value -1).  The header
hipfft.h is not part of the sources at hand; only the distinctness of the two
constants matters to the translated code. -/
def HIPFFT_FORWARD : Int := -1

/-- Direction constant from hipfft.h (cuFFT-compatible value 1). -/
def HIPFFT_BACKWARD : Int := 1

/-- struct hipfftIOType: resolved input/output data types (default-initialised
to HIP_C_32F as in the source). -/
structure hipfftIOType where
  inputType : hipDataType := .HIP_C_32F
  outputType : hipDataType := .HIP_C_32F
  deriving DecidableEq, Repr

/-- hipfftIOType::init(hipDataType, hipDataType, hipDataType): validate an
explicit (input, output, exec) triple; on success store input/output, on
failure return the error and leave the fields untouched.  Transcribed case
by case from the switch at hipfft.cpp:116-155. -/
def hipfftIOType.init3 (self : hipfftIOType) (input output exec : hipDataType) :
    hipfftResult × hipfftIOType :=
  match input with
  | .HIP_R_16F =>
    if output ≠ .HIP_C_16F ∨ exec ≠ .HIP_C_16F then (.HIPFFT_INVALID_VALUE, self)
    else (.HIPFFT_SUCCESS, { inputType := input, outputType := output })
  | .HIP_R_32F =>
    if output ≠ .HIP_C_32F ∨ exec ≠ .HIP_C_32F then (.HIPFFT_INVALID_VALUE, self)
    else (.HIPFFT_SUCCESS, { inputType := input, outputType := output })
  | .HIP_R_64F =>
    if output ≠ .HIP_C_64F ∨ exec ≠ .HIP_C_64F then (.HIPFFT_INVALID_VALUE, self)
    else (.HIPFFT_SUCCESS, { inputType := input, outputType := output })
  | .HIP_C_16F =>
    if (output ≠ .HIP_C_16F ∧ output ≠ .HIP_R_16F) ∨ exec ≠ .HIP_C_16F then
      (.HIPFFT_INVALID_VALUE, self)
    else (.HIPFFT_SUCCESS, { inputType := input, outputType := output })
  | .HIP_C_32F =>
    if (output ≠ .HIP_C_32F ∧ output ≠ .HIP_R_32F) ∨ exec ≠ .HIP_C_32F then
      (.HIPFFT_INVALID_VALUE, self)
    else (.HIPFFT_SUCCESS, { inputType := input, outputType := output })
  | .HIP_C_64F =>
    if (output ≠ .HIP_C_64F ∧ output ≠ .HIP_R_64F) ∨ exec ≠ .HIP_C_64F then
      (.HIPFFT_INVALID_VALUE, self)
    else (.HIPFFT_SUCCESS, { inputType := input, outputType := output })
  | .HIP_DATATYPE_OTHER => (.HIPFFT_NOT_IMPLEMENTED, self)

/-- hipfftIOType::precision(): derived from the input type tag.  The source
switch has no case for other enum members (undefined behaviour, flagged as
unreachable-through-the-public-API); the embedding picks an arbitrary value
for `HIP_DATATYPE_OTHER`. -/
def hipfftIOType.precision (t : hipfftIOType) : rocfft_precision :=
  match t.inputType with
  | .HIP_R_16F | .HIP_C_16F => .half
  | .HIP_C_32F | .HIP_R_32F => .single
  | .HIP_R_64F | .HIP_C_64F => .double
  | .HIP_DATATYPE_OTHER => .single

/-- hipfftIOType::is_real_to_complex(): true iff the input type is real.
`HIP_DATATYPE_OTHER` is undefined behaviour in the source; modelled as false. -/
def hipfftIOType.is_real_to_complex (t : hipfftIOType) : Bool :=
  match t.inputType with
  | .HIP_R_16F | .HIP_R_32F | .HIP_R_64F => true
  | .HIP_C_16F | .HIP_C_32F | .HIP_C_64F => false
  | .HIP_DATATYPE_OTHER => false

/-- hipfftIOType::is_complex_to_real(): true iff the output type is real.
`HIP_DATATYPE_OTHER` is undefined behaviour in the source; modelled as false. -/
def hipfftIOType.is_complex_to_real (t : hipfftIOType) : Bool :=
  match t.outputType with
  | .HIP_R_16F | .HIP_R_32F | .HIP_R_64F => true
  | .HIP_C_16F | .HIP_C_32F | .HIP_C_64F => false
  | .HIP_DATATYPE_OTHER => false

/-- hipfftIOType::is_complex_to_complex(). -/
def hipfftIOType.is_complex_to_complex (t : hipfftIOType) : Bool :=
  !t.is_complex_to_real && !t.is_real_to_complex

/-- hipfftIOType::is_forward(rocfft_transform_type). -/
def hipfftIOType.is_forward : rocfft_transform_type → Bool
  | .complex_forward | .real_forward => true
  | .complex_inverse | .real_inverse => false

/-- hipfftIOType::transform_types(): the direction set implied by the types. -/
def hipfftIOType.transform_types (t : hipfftIOType) : List rocfft_transform_type :=
  if t.is_real_to_complex then [.real_forward]
  else if t.is_complex_to_real then [.real_inverse]
  else [.complex_forward, .complex_inverse]

/-- A type is one of the six FFT data types the shim accepts. -/
def hipDataType.isFFTType : hipDataType → Bool
  | .HIP_DATATYPE_OTHER => false
  | _ => true

/-- The data type is real-valued (spec vocabulary). -/
def hipDataType.isRealType : hipDataType → Bool
  | .HIP_R_16F | .HIP_R_32F | .HIP_R_64F => true
  | _ => false

/-- The data type is complex-valued (spec vocabulary). -/
def hipDataType.isComplexType : hipDataType → Bool
  | .HIP_C_16F | .HIP_C_32F | .HIP_C_64F => true
  | _ => false

/-- Precision of a data type (spec vocabulary); none outside the six FFT
types. -/
def hipDataType.precOf : hipDataType → Option rocfft_precision
  | .HIP_R_16F | .HIP_C_16F => some .half
  | .HIP_R_32F | .HIP_C_32F => some .single
  | .HIP_R_64F | .HIP_C_64F => some .double
  | .HIP_DATATYPE_OTHER => none

/-- Spec §3 compatibility rule for an explicit (input, output, exec) triple,
written from the spec's words: real input needs a complex output and complex
execution type of the same precision; complex input needs a complex-or-real
output of the same precision and a complex execution type of the same
precision. -/
def specTypeTripleOK (input output exec : hipDataType) : Bool :=
  (input.isRealType && output.isComplexType && exec.isComplexType
      && (output.precOf == input.precOf) && (exec.precOf == input.precOf))
  || (input.isComplexType && (output.isComplexType || output.isRealType)
      && (output.precOf == input.precOf)
      && exec.isComplexType && (exec.precOf == input.precOf))

/-- A resolved IO type is well formed: both stored types are FFT data types
and the transform is not simultaneously real-to-complex and complex-to-real.
Every hipfftIOType actually produced by either `init` overload satisfies
this. -/
def hipfftIOType.WF (t : hipfftIOType) : Prop :=
  t.inputType.isFFTType = true ∧ t.outputType.isFFTType = true ∧
    ¬(t.is_real_to_complex = true ∧ t.is_complex_to_real = true)

/-- One registered callback binding inside a rocfft_execution_info: the
(function pointers, data pointers, shared-memory bytes) triple last passed to
rocfft_execution_info_set_load_callback / _set_store_callback. -/
structure CallbackBinding where
  cb_ptrs : Nat
  cb_data : Nat
  lds_bytes : Nat
  deriving DecidableEq, Repr

/-- Observable state of the opaque rocfft_execution_info handle: the two
callback bindings and the bound work buffer (pointer, size). -/
structure rocfft_execution_info_t where
  load_binding : CallbackBinding := ⟨0, 0, 0⟩
  store_binding : CallbackBinding := ⟨0, 0, 0⟩
  work_buffer : Option (Nat × Nat) := none
  deriving DecidableEq, Repr

/-- struct hipfftHandle_t.  Backend plan handles are `Option Nat`
(`none` = nullptr).  Field defaults mirror the C++ member initialisers.
The `scale_factor : double` member is omitted: it is floating point and no
claim touches it. -/
structure hipfftHandle_t where
  type : hipfftIOType := {}
  ip_forward : Option Nat := none
  op_forward : Option Nat := none
  ip_inverse : Option Nat := none
  op_inverse : Option Nat := none
  info : rocfft_execution_info_t := {}
  workBuffer : Nat := 0
  workBufferSize : Nat := 0
  autoAllocate : Bool := true
  workBufferNeedsFree : Bool := false
  load_callback_ptrs : Nat := 0
  load_callback_data : Nat := 0
  load_callback_lds_bytes : Nat := 0
  store_callback_ptrs : Nat := 0
  store_callback_data : Nat := 0
  store_callback_lds_bytes : Nat := 0
  deriving DecidableEq, Repr

/-- get_exec_plan (hipfft.cpp:1127-1137): pick the backend plan slot for a
placement and an explicit direction; nullptr for any other direction value. -/
def get_exec_plan (plan : hipfftHandle_t) (inplace : Bool) (direction : Int) :
    Option Nat :=
  if direction = HIPFFT_FORWARD then
    if inplace then plan.ip_forward else plan.op_forward
  else if direction = HIPFFT_BACKWARD then
    if inplace then plan.ip_inverse else plan.op_inverse
  else none

/-- static hipfftExec (hipfft.cpp:1139-1152).  The rocfft_execute call is an
opaque backend action whose status is the oracle `exec_ok`. -/
def hipfftExec (rplan : Option Nat) (rinfo : rocfft_execution_info_t)
    (idata odata : Nat) (exec_ok : Bool) : hipfftResult :=
  match rplan, rinfo with
  | none, _ => .HIPFFT_EXEC_FAILED
  | some _, _ =>
    if idata = 0 ∨ odata = 0 then .HIPFFT_EXEC_FAILED
    else if exec_ok then .HIPFFT_SUCCESS else .HIPFFT_EXEC_FAILED

/-- static hipfftExecForward (hipfft.cpp:1154-1159). -/
def hipfftExecForward (plan : hipfftHandle_t) (idata odata : Nat)
    (exec_ok : Bool) : hipfftResult :=
  let inplace := idata = odata
  let rplan := get_exec_plan plan inplace HIPFFT_FORWARD
  hipfftExec rplan plan.info idata odata exec_ok

/-- static hipfftExecBackward (hipfft.cpp:1161-1166). -/
def hipfftExecBackward (plan : hipfftHandle_t) (idata odata : Nat)
    (exec_ok : Bool) : hipfftResult :=
  let inplace := idata = odata
  let rplan := get_exec_plan plan inplace HIPFFT_BACKWARD
  hipfftExec rplan plan.info idata odata exec_ok

/-- hipfftExecC2C (hipfft.cpp:1168-1179). -/
def hipfftExecC2C (plan : hipfftHandle_t) (idata odata : Nat)
    (direction : Int) (exec_ok : Bool) : hipfftResult :=
  if direction = HIPFFT_FORWARD then hipfftExecForward plan idata odata exec_ok
  else if direction = HIPFFT_BACKWARD then hipfftExecBackward plan idata odata exec_ok
  else .HIPFFT_EXEC_FAILED

/-- hipfftExecR2C (hipfft.cpp:1181-1184). -/
def hipfftExecR2C (plan : hipfftHandle_t) (idata odata : Nat)
    (exec_ok : Bool) : hipfftResult :=
  hipfftExecForward plan idata odata exec_ok

/-- hipfftExecC2R (hipfft.cpp:1186-1189). -/
def hipfftExecC2R (plan : hipfftHandle_t) (idata odata : Nat)
    (exec_ok : Bool) : hipfftResult :=
  hipfftExecBackward plan idata odata exec_ok

/-- hipfftExecZ2Z (hipfft.cpp:1191-1204); same body shape as hipfftExecC2C. -/
def hipfftExecZ2Z (plan : hipfftHandle_t) (idata odata : Nat)
    (direction : Int) (exec_ok : Bool) : hipfftResult :=
  if direction = HIPFFT_FORWARD then hipfftExecForward plan idata odata exec_ok
  else if direction = HIPFFT_BACKWARD then hipfftExecBackward plan idata odata exec_ok
  else .HIPFFT_EXEC_FAILED

/-- Direction slot picked by the branch cascade of hipfftXtExec
(hipfft.cpp:1483-1490): forward when `is_real_to_complex() || direction ==
HIPFFT_FORWARD`, else inverse when `is_complex_to_real() || direction ==
HIPFFT_BACKWARD`, else none. -/
def hipfftXtExecDirection (t : hipfftIOType) (direction : Int) :
    Option rocfft_transform_type :=
  if t.is_real_to_complex = true ∨ direction = HIPFFT_FORWARD then
    some .real_forward
  else if t.is_complex_to_real = true ∨ direction = HIPFFT_BACKWARD then
    some .real_inverse
  else none

/-- The `plan_ptr` value computed by hipfftXtExec before its null check: the
slot of the direction picked by `hipfftXtExecDirection`, at the placement
implied by pointer equality. -/
def xtResolvedPlan (plan : hipfftHandle_t) (inplace : Bool) (direction : Int) :
    Option Nat :=
  match hipfftXtExecDirection plan.type direction with
  | some t =>
    if hipfftIOType.is_forward t then
      if inplace then plan.ip_forward else plan.op_forward
    else
      if inplace then plan.ip_inverse else plan.op_inverse
  | none => none

/-- hipfftXtExec (hipfft.cpp:1479-1494). -/
def hipfftXtExec (plan : hipfftHandle_t) (input output : Nat)
    (direction : Int) (exec_ok : Bool) : hipfftResult :=
  let inplace := input = output
  match xtResolvedPlan plan inplace direction with
  | none => .HIPFFT_INTERNAL_ERROR
  | some p => hipfftExec (some p) plan.info input output exec_ok

/-- The distance-accumulation loop of hipfftMakePlan_internal
(`for(i = 1; i < dim; i++) ... dist *= lengths[i]`), starting from the value
assigned for the fastest dimension and folding in the remaining lengths. -/
def distLoop : Nat → List Nat → Nat
  | d, [] => d
  | d, l :: ls => distLoop (d * l) ls

/-- Distances written into the backend plan description of each
(placement, direction) slot by hipfftMakePlan_internal when
`re_calc_strides_in_desc` holds (hipfft.cpp:389-559), as a pair
(input distance, output distance); `none` for slot descriptions the branch
leaves untouched.  `l0` is the fastest dimension `lengths[0]`, `rest` the
remaining lengths in `lengths[1..dim-1]` order. -/
def recalcSlotDists (l0 : Nat) (rest : List Nat)
    (inArrayType outArrayType : rocfft_array_type)
    (pl : rocfft_placement) (fwd : Bool) : Option (Nat × Nat) :=
  if inArrayType = .real then -- real-to-complex branch, hipfft.cpp:391-444
    match pl, fwd with
    | .inplace, true => some (distLoop (2 * (1 + l0 / 2)) rest, distLoop (1 + l0 / 2) rest)
    | .notinplace, true => some (distLoop l0 rest, distLoop (1 + l0 / 2) rest)
    | .inplace, false => none
    | .notinplace, false => none
  else if outArrayType = .real then -- complex-to-real branch, hipfft.cpp:445-498
    match pl, fwd with
    | .inplace, false => some (distLoop (1 + l0 / 2) rest, distLoop (2 * (1 + l0 / 2)) rest)
    | .notinplace, false => some (distLoop (1 + l0 / 2) rest, distLoop l0 rest)
    | .inplace, true => none
    | .notinplace, true => none
  else -- complex-to-complex branch, hipfft.cpp:499-559: same dist for all four
    some (distLoop l0 rest, distLoop l0 rest)

/-- Array-type pair chosen by hipfftMakePlanMany_internal from the transform
role (hipfft.cpp:857-873). -/
def planManyArrayTypes (t : hipfftIOType) : rocfft_array_type × rocfft_array_type :=
  if t.is_real_to_complex then (.real, .hermitian_interleaved)
  else if t.is_complex_to_real then (.hermitian_interleaved, .real)
  else (.complex_interleaved, .complex_interleaved)

/-- Oracles for the opaque rocFFT backend and HIP allocator used by
hipfftMakePlan_internal; every backend call the source checks for failure has
a status oracle.  `set_data_layout_ok` is the status of
rocfft_plan_description_set_data_layout for the (placement, is-forward)
descriptor it configures (checked at hipfft.cpp:406-606); `create_ok` the
status of rocfft_plan_create for a given (placement, transform type);
`plan_id` the (nonzero) handle it yields on success; `work_size_ok` and
`work_size` the status and reported size of
rocfft_plan_get_work_buffer_size for a created handle (checked at
hipfft.cpp:672/678/689/695); `free_ok`/`malloc_ok` the hipFree/hipMalloc
statuses; `malloc_ptr` the buffer hipMalloc returns; `set_work_buffer_ok`
the status of rocfft_execution_info_set_work_buffer. -/
structure PlanBackend where
  create_ok : rocfft_placement → rocfft_transform_type → Bool
  plan_id : rocfft_placement → rocfft_transform_type → Nat
  work_size : Nat → Nat
  set_data_layout_ok : rocfft_placement → Bool → Bool := fun _ _ => true
  work_size_ok : Nat → Bool := fun _ => true
  free_ok : Bool := true
  malloc_ok : Bool := true
  malloc_ptr : Nat := 1
  set_work_buffer_ok : Bool := true

/-- Read the backend-plan slot selected by placement and by
`iotype.is_forward(t)` (the `auto&` slot references at hipfft.cpp:634,646). -/
def hipfftHandle_t.getSlot (p : hipfftHandle_t) (pl : rocfft_placement)
    (fwd : Bool) : Option Nat :=
  match pl, fwd with
  | .inplace, true => p.ip_forward
  | .inplace, false => p.ip_inverse
  | .notinplace, true => p.op_forward
  | .notinplace, false => p.op_inverse

/-- Write the backend-plan slot selected by placement and direction flag. -/
def hipfftHandle_t.setSlot (p : hipfftHandle_t) (pl : rocfft_placement)
    (fwd : Bool) (v : Option Nat) : hipfftHandle_t :=
  match pl, fwd with
  | .inplace, true => { p with ip_forward := v }
  | .inplace, false => { p with ip_inverse := v }
  | .notinplace, true => { p with op_forward := v }
  | .notinplace, false => { p with op_inverse := v }

/-- ROC_FFT_CHECK_PLAN_CREATE (hipfft.cpp:59-71): attempt to create one
backend plan; on success store the handle and bump the count, on failure
destroy the partial handle and leave the slot null. -/
def roc_fft_check_plan_create (b : PlanBackend) (pl : rocfft_placement)
    (t : rocfft_transform_type) (st : hipfftHandle_t × Nat) :
    hipfftHandle_t × Nat :=
  if b.create_ok pl t then
    (st.1.setSlot pl (hipfftIOType.is_forward t) (some (b.plan_id pl t)), st.2 + 1)
  else
    (st.1.setSlot pl (hipfftIOType.is_forward t) none, st.2)

/-- The plan-creation loop of hipfftMakePlan_internal (hipfft.cpp:630-657):
for each transform type in the direction set, attempt the in-place then the
out-of-place plan, tolerating per-slot failures. -/
def createLoop (b : PlanBackend) (iotype : hipfftIOType)
    (plan : hipfftHandle_t) : hipfftHandle_t × Nat :=
  iotype.transform_types.foldl
    (fun st t =>
      roc_fft_check_plan_create b .notinplace t
        (roc_fft_check_plan_create b .inplace t st))
    (plan, 0)

/-- `workBufferSize = max(workBufferSize, tmp)` over one populated slot; the
rocfft_plan_get_work_buffer_size call is checked with
ROC_FFT_CHECK_INVALID_VALUE (hipfft.cpp:670-698), so a failed query aborts
the sizing (`none`). -/
def querySlotSize (b : PlanBackend) (slot : Option Nat) (acc : Nat) :
    Option Nat :=
  match slot with
  | some id =>
    if b.work_size_ok id = true then some (max acc (b.work_size id)) else none
  | none => some acc

/-- Work-buffer sizing of hipfftMakePlan_internal (hipfft.cpp:664-699):
forward slots are queried unless the transform is complex-to-real, inverse
slots unless it is real-to-complex, in source order; the first failing
rocfft_plan_get_work_buffer_size call aborts with `none`
(HIPFFT_INVALID_VALUE in the caller). -/
def maxWorkSize (b : PlanBackend) (iotype : hipfftIOType)
    (p : hipfftHandle_t) : Option Nat :=
  let fwd : Option Nat :=
    if iotype.is_complex_to_real then some 0
    else
      match querySlotSize b p.ip_forward 0 with
      | none => none
      | some a => querySlotSize b p.op_forward a
  match fwd with
  | none => none
  | some s1 =>
    if iotype.is_real_to_complex then some s1
    else
      match querySlotSize b p.ip_inverse s1 with
      | none => none
      | some a => querySlotSize b p.op_inverse a

/-- The type-assignment, work-buffer sizing and auto-allocation tail of
hipfftMakePlan_internal (hipfft.cpp:662-726), entered once at least one
backend plan was created.  A failed work-buffer-size query returns
HIPFFT_INVALID_VALUE with the type already assigned (the source returns from
inside the sizing section). -/
def makePlanWorkspacePhase (b : PlanBackend) (iotype : hipfftIOType)
    (p0 : hipfftHandle_t) : hipfftResult × hipfftHandle_t :=
  let p := { p0 with type := iotype }
  match maxWorkSize b iotype p with
  | none => (.HIPFFT_INVALID_VALUE, p)
  | some workBufferSize =>
    if 0 < workBufferSize ∧ p.autoAllocate = true then
      if p.workBuffer ≠ 0 ∧ p.workBufferNeedsFree = true ∧ b.free_ok = false then
        (.HIPFFT_ALLOC_FAILED, p)
      else if b.malloc_ok = false then (.HIPFFT_ALLOC_FAILED, p)
      else
        let p := { p with workBuffer := b.malloc_ptr, workBufferNeedsFree := true }
        if b.set_work_buffer_ok = false then (.HIPFFT_INVALID_VALUE, p)
        else
          let p := { p with
            info := { p.info with work_buffer := some (b.malloc_ptr, workBufferSize) } }
          (.HIPFFT_SUCCESS, { p with workBufferSize := workBufferSize })
    else (.HIPFFT_SUCCESS, { p with workBufferSize := workBufferSize })

/-- The descriptor slots whose rocfft_plan_description_set_data_layout call
hipfftMakePlan_internal issues when a plan description is present
(hipfft.cpp:389-607), in source order: with re_calc_strides_in_desc, only
the slots of the branch the array types select (forward descriptors for
real input, inverse descriptors for real output, all four otherwise);
without it, all four with the caller-supplied layout. -/
def descLayoutSlots (inArrayType outArrayType : rocfft_array_type)
    (re_calc : Bool) : List (rocfft_placement × Bool) :=
  if re_calc then
    if inArrayType = .real then [(.inplace, true), (.notinplace, true)]
    else if outArrayType = .real then [(.inplace, false), (.notinplace, false)]
    else [(.inplace, true), (.notinplace, true), (.inplace, false), (.notinplace, false)]
  else [(.inplace, true), (.notinplace, true), (.inplace, false), (.notinplace, false)]

/-- Whether every checked rocfft_plan_description_set_data_layout call of a
make-plan invocation succeeds: vacuously true with no plan description
(`desc = none`, the 1d/2d/3d path), otherwise all calls of the branch for the
descriptor's array types.  Each call is wrapped in
ROC_FFT_CHECK_INVALID_VALUE, so the first failure returns
HIPFFT_INVALID_VALUE before the creation loop. -/
def descLayoutOK (b : PlanBackend)
    (desc : Option (rocfft_array_type × rocfft_array_type))
    (re_calc : Bool) : Bool :=
  match desc with
  | some q => (descLayoutSlots q.1 q.2 re_calc).all fun s => b.set_data_layout_ok s.1 s.2
  | none => true

/-- hipfftMakePlan_internal (hipfft.cpp:351-727).  `desc` carries the
observable content of the hipfft_plan_description_t argument (its in/out
array types; the strides and distances it induces are recorded by
`recalcSlotDists`), `none` for the nullptr descriptor of the 1d/2d/3d
entry points.  A checked set_data_layout failure returns
HIPFFT_INVALID_VALUE before the creation loop; then the loop runs, an empty
creation count fails with HIPFFT_PARSE_ERROR, and otherwise the sizing and
allocation tail executes.  The unchecked scale-factor descriptor calls
(hipfft.cpp:610-624) have no observable output here and are omitted along
with the `scale_factor` field. -/
def hipfftMakePlan_internal (b : PlanBackend) (iotype : hipfftIOType)
    (plan : hipfftHandle_t)
    (desc : Option (rocfft_array_type × rocfft_array_type))
    (re_calc_strides_in_desc : Bool) : hipfftResult × hipfftHandle_t :=
  if descLayoutOK b desc re_calc_strides_in_desc = false then
    (.HIPFFT_INVALID_VALUE, plan)
  else
    let st := createLoop b iotype plan
    if st.2 = 0 then (.HIPFFT_PARSE_ERROR, st.1)
    else makePlanWorkspacePhase b iotype st.1

/-- hipfftXtMakePlanMany (hipfft.cpp:1431-1450), restricted to the data that
decides type resolution: a local default-initialised hipfftIOType is run
through `init3`; a failure returns that code at once (HIP_FFT_CHECK_AND_RETURN)
without touching the plan, a success proceeds into the make-plan path with
the descriptor hipfftMakePlanMany_internal builds — array types from the
transform role, modelled here at the natural-layout call (null embeddings,
re_calc_strides_in_desc true); the induced strides and distances are
recorded by `recalcSlotDists`. -/
def hipfftXtMakePlanMany (b : PlanBackend) (plan : hipfftHandle_t)
    (inputtype outputtype executiontype : hipDataType) :
    hipfftResult × hipfftHandle_t :=
  let r := hipfftIOType.init3 {} inputtype outputtype executiontype
  match r with
  | (.HIPFFT_SUCCESS, iotype) =>
    hipfftMakePlan_internal b iotype plan (some (planManyArrayTypes iotype)) true
  | (res, _) => (res, plan)

/-- The per-kind validate-and-store switch of hipfftXtSetCallback
(hipfft.cpp:1308-1368): `none` when the kind's precision or real/complex role
check fails (or the kind is HIPFFT_CB_UNDEFINED), otherwise the handle with
the selected side's pointer fields stored and that side's shared-memory bytes
zeroed. -/
def setCbFields (p : hipfftHandle_t) (callbacks callbackData : Nat)
    (cbtype : hipfftXtCallbackType) : Option hipfftHandle_t :=
  match cbtype with
  | .HIPFFT_CB_LD_COMPLEX =>
    if p.type.precision ≠ .single ∨ p.type.is_real_to_complex = true then none
    else some { p with load_callback_ptrs := callbacks,
                       load_callback_data := callbackData,
                       load_callback_lds_bytes := 0 }
  | .HIPFFT_CB_LD_COMPLEX_DOUBLE =>
    if p.type.precision ≠ .double ∨ p.type.is_real_to_complex = true then none
    else some { p with load_callback_ptrs := callbacks,
                       load_callback_data := callbackData,
                       load_callback_lds_bytes := 0 }
  | .HIPFFT_CB_LD_REAL =>
    if p.type.precision ≠ .single ∨ p.type.is_real_to_complex = false then none
    else some { p with load_callback_ptrs := callbacks,
                       load_callback_data := callbackData,
                       load_callback_lds_bytes := 0 }
  | .HIPFFT_CB_LD_REAL_DOUBLE =>
    if p.type.precision ≠ .double ∨ p.type.is_real_to_complex = false then none
    else some { p with load_callback_ptrs := callbacks,
                       load_callback_data := callbackData,
                       load_callback_lds_bytes := 0 }
  | .HIPFFT_CB_ST_COMPLEX =>
    if p.type.precision ≠ .single ∨ p.type.is_complex_to_real = true then none
    else some { p with store_callback_ptrs := callbacks,
                       store_callback_data := callbackData,
                       store_callback_lds_bytes := 0 }
  | .HIPFFT_CB_ST_COMPLEX_DOUBLE =>
    if p.type.precision ≠ .double ∨ p.type.is_complex_to_real = true then none
    else some { p with store_callback_ptrs := callbacks,
                       store_callback_data := callbackData,
                       store_callback_lds_bytes := 0 }
  | .HIPFFT_CB_ST_REAL =>
    if p.type.precision ≠ .single ∨ p.type.is_complex_to_real = false then none
    else some { p with store_callback_ptrs := callbacks,
                       store_callback_data := callbackData,
                       store_callback_lds_bytes := 0 }
  | .HIPFFT_CB_ST_REAL_DOUBLE =>
    if p.type.precision ≠ .double ∨ p.type.is_complex_to_real = false then none
    else some { p with store_callback_ptrs := callbacks,
                       store_callback_data := callbackData,
                       store_callback_lds_bytes := 0 }
  | .HIPFFT_CB_UNDEFINED => none

/-- The common tail of hipfftXtSetCallback and hipfftXtSetCallbackSharedSize
(hipfft.cpp:1370-1383 and 1415-1428): re-register the load and then the store
callback binding from the handle's current fields.  A backend registration
failure returns HIPFFT_INVALID_VALUE; the backend's effect on a failed
registration is unobservable and modelled as leaving the binding unchanged. -/
def registerBothCallbacks (p : hipfftHandle_t) (load_reg_ok store_reg_ok : Bool) :
    hipfftResult × hipfftHandle_t :=
  if load_reg_ok = false then (.HIPFFT_INVALID_VALUE, p)
  else
    let p := { p with info := { p.info with
      load_binding := ⟨p.load_callback_ptrs, p.load_callback_data,
        p.load_callback_lds_bytes⟩ } }
    if store_reg_ok = false then (.HIPFFT_INVALID_VALUE, p)
    else
      (.HIPFFT_SUCCESS, { p with info := { p.info with
        store_binding := ⟨p.store_callback_ptrs, p.store_callback_data,
          p.store_callback_lds_bytes⟩ } })

/-- hipfftXtSetCallback (hipfft.cpp:1295-1384). -/
def hipfftXtSetCallback (plan : Option hipfftHandle_t) (callbacks : Nat)
    (cbtype : hipfftXtCallbackType) (callbackData : Nat)
    (load_reg_ok store_reg_ok : Bool) : hipfftResult × Option hipfftHandle_t :=
  match plan with
  | none => (.HIPFFT_INVALID_PLAN, none)
  | some p =>
    match setCbFields p callbacks callbackData cbtype with
    | none => (.HIPFFT_INVALID_VALUE, some p)
    | some p2 =>
      let r := registerBothCallbacks p2 load_reg_ok store_reg_ok
      (r.1, some r.2)

/-- hipfftXtClearCallback (hipfft.cpp:1386-1389). -/
def hipfftXtClearCallback (plan : Option hipfftHandle_t)
    (cbtype : hipfftXtCallbackType) (load_reg_ok store_reg_ok : Bool) :
    hipfftResult × Option hipfftHandle_t :=
  hipfftXtSetCallback plan 0 cbtype 0 load_reg_ok store_reg_ok

/-- hipfftXtSetCallbackSharedSize (hipfft.cpp:1391-1429): no type validation;
any load kind sets the load shared-memory bytes, any store kind the store
bytes, HIPFFT_CB_UNDEFINED is rejected; then both bindings re-registered. -/
def hipfftXtSetCallbackSharedSize (plan : Option hipfftHandle_t)
    (cbtype : hipfftXtCallbackType) (sharedSize : Nat)
    (load_reg_ok store_reg_ok : Bool) : hipfftResult × Option hipfftHandle_t :=
  match plan with
  | none => (.HIPFFT_INVALID_PLAN, none)
  | some p =>
    match cbtype with
    | .HIPFFT_CB_LD_COMPLEX | .HIPFFT_CB_LD_COMPLEX_DOUBLE
    | .HIPFFT_CB_LD_REAL | .HIPFFT_CB_LD_REAL_DOUBLE =>
      let r := registerBothCallbacks
        { p with load_callback_lds_bytes := sharedSize } load_reg_ok store_reg_ok
      (r.1, some r.2)
    | .HIPFFT_CB_ST_COMPLEX | .HIPFFT_CB_ST_COMPLEX_DOUBLE
    | .HIPFFT_CB_ST_REAL | .HIPFFT_CB_ST_REAL_DOUBLE =>
      let r := registerBothCallbacks
        { p with store_callback_lds_bytes := sharedSize } load_reg_ok store_reg_ok
      (r.1, some r.2)
    | .HIPFFT_CB_UNDEFINED => (.HIPFFT_INVALID_VALUE, some p)

/-- The kind matches the plan's resolved type: the kind's precision equals the
plan's precision and the kind's real/complex role agrees with the side it
addresses (load side real exactly for real-to-complex plans, store side real
exactly for complex-to-real plans).  HIPFFT_CB_UNDEFINED matches nothing. -/
def cbMatches (cbtype : hipfftXtCallbackType) (t : hipfftIOType) : Bool :=
  match cbtype with
  | .HIPFFT_CB_LD_COMPLEX => t.precision == .single && !t.is_real_to_complex
  | .HIPFFT_CB_LD_COMPLEX_DOUBLE => t.precision == .double && !t.is_real_to_complex
  | .HIPFFT_CB_LD_REAL => t.precision == .single && t.is_real_to_complex
  | .HIPFFT_CB_LD_REAL_DOUBLE => t.precision == .double && t.is_real_to_complex
  | .HIPFFT_CB_ST_COMPLEX => t.precision == .single && !t.is_complex_to_real
  | .HIPFFT_CB_ST_COMPLEX_DOUBLE => t.precision == .double && !t.is_complex_to_real
  | .HIPFFT_CB_ST_REAL => t.precision == .single && t.is_complex_to_real
  | .HIPFFT_CB_ST_REAL_DOUBLE => t.precision == .double && t.is_complex_to_real
  | .HIPFFT_CB_UNDEFINED => false

/-- The kind addresses the load side (LD kinds) rather than the store side. -/
def cbIsLoad : hipfftXtCallbackType → Bool
  | .HIPFFT_CB_LD_COMPLEX | .HIPFFT_CB_LD_COMPLEX_DOUBLE
  | .HIPFFT_CB_LD_REAL | .HIPFFT_CB_LD_REAL_DOUBLE => true
  | _ => false

/-- hipfftSetWorkArea (hipfft.cpp:1113-1124).  Output also records the pointer
handed to hipFree, if any (the source ignores hipFree's status here).
`set_ok` is the status of rocfft_execution_info_set_work_buffer. -/
def hipfftSetWorkArea (p : hipfftHandle_t) (workArea : Nat) (set_ok : Bool) :
    hipfftResult × hipfftHandle_t × Option Nat :=
  let freed := if p.workBuffer ≠ 0 ∧ p.workBufferNeedsFree = true
    then some p.workBuffer else none
  let p := { p with workBufferNeedsFree := false }
  if workArea ≠ 0 then
    if set_ok = false then (.HIPFFT_INVALID_VALUE, p, freed)
    else
      (.HIPFFT_SUCCESS,
        { p with info := { p.info with
            work_buffer := some (workArea, p.workBufferSize) } },
        freed)
  else (.HIPFFT_SUCCESS, p, freed)

/-- C9: calling the complex-to-complex execute entry points with a direction
value other than HIPFFT_FORWARD or HIPFFT_BACKWARD returns the execution
failed result; the switch falls through before any slot lookup or backend
execute call, and the plan (a pure value here, as in the source, which never
writes the handle on this path) is untouched. -/
theorem C9_exec_c2c_bad_direction (plan : hipfftHandle_t) (idata odata : Nat)
    (direction : Int) (exec_ok : Bool)
    (hf : direction ≠ HIPFFT_FORWARD) (hb : direction ≠ HIPFFT_BACKWARD) :
    hipfftExecC2C plan idata odata direction exec_ok = .HIPFFT_EXEC_FAILED ∧
    hipfftExecZ2Z plan idata odata direction exec_ok = .HIPFFT_EXEC_FAILED := by
  constructor <;> simp [hipfftExecC2C, hipfftExecZ2Z, hf, hb]

/-- Witness for C9 at direction 0 on a fresh handle. -/
theorem C9_exec_c2c_bad_direction_witness :
    (0 : Int) ≠ HIPFFT_FORWARD ∧ (0 : Int) ≠ HIPFFT_BACKWARD ∧
    (hipfftExecC2C {} 1 2 0 true = .HIPFFT_EXEC_FAILED ∧
     hipfftExecZ2Z {} 1 2 0 true = .HIPFFT_EXEC_FAILED) :=
  ⟨by decide, by decide,
    C9_exec_c2c_bad_direction {} 1 2 0 true (by decide) (by decide)⟩

/-- C5 counterexample: the triple (HIP_R_8I-style unrecognised input,
HIP_C_32F, HIP_C_32F) violates the compatibility rules, yet `init` rejects it
with HIPFFT_NOT_IMPLEMENTED (the default switch label), not
HIPFFT_INVALID_VALUE as the claim states for every violating triple. -/
theorem C5_counterexample :
    specTypeTripleOK .HIP_DATATYPE_OTHER .HIP_C_32F .HIP_C_32F = false ∧
    (hipfftIOType.init3 {} .HIP_DATATYPE_OTHER .HIP_C_32F .HIP_C_32F).1 =
      .HIPFFT_NOT_IMPLEMENTED ∧
    hipfftResult.HIPFFT_NOT_IMPLEMENTED ≠ .HIPFFT_INVALID_VALUE := by decide

/-- C5 (amended): resolving from explicit types succeeds exactly on the
triples allowed by the §3 rules; a violating triple whose input type is one
of the six FFT data types is rejected with HIPFFT_INVALID_VALUE, and one with
an unrecognised input type with HIPFFT_NOT_IMPLEMENTED; either rejection
leaves the stored input/output types unchanged and, through
hipfftXtMakePlanMany's early return, reaches no backend plan creation; a
success stores exactly the given input/output types. -/
theorem C5_resolve_from_types (self : hipfftIOType) (input output exec : hipDataType) :
    ((hipfftIOType.init3 self input output exec).1 = .HIPFFT_SUCCESS ↔
      specTypeTripleOK input output exec = true) ∧
    (specTypeTripleOK input output exec = false →
      (hipfftIOType.init3 self input output exec).1 =
        (if input.isFFTType then .HIPFFT_INVALID_VALUE else .HIPFFT_NOT_IMPLEMENTED) ∧
      (hipfftIOType.init3 self input output exec).2 = self) ∧
    ((hipfftIOType.init3 self input output exec).1 = .HIPFFT_SUCCESS →
      (hipfftIOType.init3 self input output exec).2 = ⟨input, output⟩) ∧
    (specTypeTripleOK input output exec = false →
      ∀ (b : PlanBackend) (plan : hipfftHandle_t),
        hipfftXtMakePlanMany b plan input output exec =
          ((if input.isFFTType then .HIPFFT_INVALID_VALUE else .HIPFFT_NOT_IMPLEMENTED),
            plan)) := by
  cases input <;> cases output <;> cases exec <;>
    simp [hipfftIOType.init3, specTypeTripleOK, hipDataType.isRealType,
      hipDataType.isComplexType, hipDataType.precOf, hipDataType.isFFTType,
      hipfftXtMakePlanMany]

/-- Witness for C5: the mixed-precision triple (HIP_R_32F, HIP_C_64F,
HIP_C_64F) violates the rules and is concretely rejected with
HIPFFT_INVALID_VALUE, the stored types untouched. -/
theorem C5_resolve_from_types_witness :
    specTypeTripleOK .HIP_R_32F .HIP_C_64F .HIP_C_64F = false ∧
    ((hipfftIOType.init3 {} .HIP_R_32F .HIP_C_64F .HIP_C_64F).1 =
        (if hipDataType.isFFTType .HIP_R_32F then .HIPFFT_INVALID_VALUE
          else .HIPFFT_NOT_IMPLEMENTED) ∧
      (hipfftIOType.init3 {} .HIP_R_32F .HIP_C_64F .HIP_C_64F).2 = {}) :=
  ⟨by decide,
    (C5_resolve_from_types {} .HIP_R_32F .HIP_C_64F .HIP_C_64F).2.1 (by decide)⟩

/-- C1 (code bug): on a complex-to-real plan whose inverse slots are
populated, hipfftXtExec with an explicit HIPFFT_FORWARD direction selects the
forward slot — `is_real_to_complex() || direction == HIPFFT_FORWARD` fires
before the complex-to-real branch — and fails with HIPFFT_INTERNAL_ERROR,
while the same call with HIPFFT_BACKWARD (the type-implied direction)
executes.  hipfftXt.h documents that the direction parameter is ignored for
real-to-complex and complex-to-real transforms, so the code contradicts its
own interface documentation here. -/
theorem C1_xtexec_c2r_explicit_forward_bug :
    (hipfftIOType.mk .HIP_C_32F .HIP_R_32F).is_complex_to_real = true ∧
    hipfftXtExecDirection ⟨.HIP_C_32F, .HIP_R_32F⟩ HIPFFT_FORWARD =
      some .real_forward ∧
    hipfftXtExec
      { type := ⟨.HIP_C_32F, .HIP_R_32F⟩, ip_inverse := some 3, op_inverse := some 4 }
      7 7 HIPFFT_FORWARD true = .HIPFFT_INTERNAL_ERROR ∧
    hipfftXtExec
      { type := ⟨.HIP_C_32F, .HIP_R_32F⟩, ip_inverse := some 3, op_inverse := some 4 }
      7 7 HIPFFT_BACKWARD true = .HIPFFT_SUCCESS := by decide

/-- C2 counterexample: a real-to-complex plan with determined direction but
an empty selected forward slot makes hipfftXtExec return
HIPFFT_INTERNAL_ERROR — not the execution-failed result the claim promises
for every execute call with an empty selected slot. -/
theorem C2_counterexample :
    (hipfftIOType.mk .HIP_R_32F .HIP_C_32F).is_real_to_complex = true ∧
    hipfftXtExecDirection ⟨.HIP_R_32F, .HIP_C_32F⟩ HIPFFT_FORWARD =
      some .real_forward ∧
    xtResolvedPlan { type := ⟨.HIP_R_32F, .HIP_C_32F⟩ } false HIPFFT_FORWARD = none ∧
    hipfftXtExec { type := ⟨.HIP_R_32F, .HIP_C_32F⟩ } 1 2 HIPFFT_FORWARD true =
      .HIPFFT_INTERNAL_ERROR ∧
    hipfftResult.HIPFFT_INTERNAL_ERROR ≠ .HIPFFT_EXEC_FAILED := by decide

/-- C2 (amended): the classic execute entry points return HIPFFT_EXEC_FAILED
when the selected (placement, direction) slot is empty, while hipfftXtExec
returns HIPFFT_INTERNAL_ERROR precisely when its resolved plan pointer is
null — whether because the selected slot is empty or because no direction
branch applied. -/
theorem C2_empty_slot_results (p : hipfftHandle_t) (idata odata : Nat)
    (exec_ok : Bool) :
    (get_exec_plan p (decide (idata = odata)) HIPFFT_FORWARD = none →
      hipfftExecC2C p idata odata HIPFFT_FORWARD exec_ok = .HIPFFT_EXEC_FAILED) ∧
    (get_exec_plan p (decide (idata = odata)) HIPFFT_BACKWARD = none →
      hipfftExecC2C p idata odata HIPFFT_BACKWARD exec_ok = .HIPFFT_EXEC_FAILED) ∧
    (get_exec_plan p (decide (idata = odata)) HIPFFT_FORWARD = none →
      hipfftExecR2C p idata odata exec_ok = .HIPFFT_EXEC_FAILED) ∧
    (get_exec_plan p (decide (idata = odata)) HIPFFT_BACKWARD = none →
      hipfftExecC2R p idata odata exec_ok = .HIPFFT_EXEC_FAILED) ∧
    (∀ direction : Int,
      hipfftXtExec p idata odata direction exec_ok = .HIPFFT_INTERNAL_ERROR ↔
        xtResolvedPlan p (decide (idata = odata)) direction = none) := by
  refine ⟨?_, ?_, ?_, ?_, ?_⟩
  · intro h
    simp [hipfftExecC2C, hipfftExecForward, h, hipfftExec]
  · intro h
    simp only [HIPFFT_BACKWARD] at h
    simp [hipfftExecC2C, hipfftExecBackward, h, hipfftExec,
      HIPFFT_FORWARD, HIPFFT_BACKWARD]
  · intro h
    simp [hipfftExecR2C, hipfftExecForward, h, hipfftExec]
  · intro h
    simp [hipfftExecC2R, hipfftExecBackward, h, hipfftExec]
  · intro direction
    cases h : xtResolvedPlan p (decide (idata = odata)) direction with
    | none => simp [hipfftXtExec, h]
    | some q =>
      simp only [hipfftXtExec, h, hipfftExec]
      constructor
      · intro hc
        by_cases hz : idata = 0 ∨ odata = 0 <;> cases exec_ok <;> simp_all
      · intro hc
        exact absurd hc (Option.some_ne_none q)

/-- Witness for C2 on a fresh complex-to-complex handle (all slots empty):
both classic directions fail with HIPFFT_EXEC_FAILED, and hipfftXtExec's
internal-error condition evaluates on the same handle. -/
theorem C2_empty_slot_results_witness :
    (hipfftExecC2C {} 1 2 HIPFFT_FORWARD true = .HIPFFT_EXEC_FAILED ∧
     hipfftExecC2C {} 1 2 HIPFFT_BACKWARD true = .HIPFFT_EXEC_FAILED) ∧
    (hipfftXtExec {} 1 2 HIPFFT_FORWARD true = .HIPFFT_INTERNAL_ERROR ↔
      xtResolvedPlan {} (decide ((1 : Nat) = 2)) HIPFFT_FORWARD = none) :=
  ⟨⟨(C2_empty_slot_results {} 1 2 true).1 (by decide),
    (C2_empty_slot_results {} 1 2 true).2.1 (by decide)⟩,
   (C2_empty_slot_results {} 1 2 true).2.2.2.2 HIPFFT_FORWARD⟩

/-- The distance loop multiplies its starting value by the product of the
remaining lengths. -/
theorem distLoop_eq_mul_prod (d : Nat) (l : List Nat) :
    distLoop d l = d * l.prod := by
  induction l generalizing d with
  | nil => simp [distLoop]
  | cons x xs ih =>
    simp only [distLoop, ih, List.prod_cons]
    ring

/-- C3: with natural layout (no explicit embeddings), the recalculated batch
distances are: real-to-complex in-place input 2*(1+n0/2) times the product of
the remaining lengths and output (1+n0/2) times that product; real-to-complex
out-of-place input the plain product of all lengths and output (1+n0/2) times
the remaining product; the mirrored values for complex-to-real; and the plain
product of all lengths for both sides of every complex-to-complex slot
(n0 = `l0` the fastest dimension, `rest` the remaining lengths, between one
and three lengths in total). -/
theorem C3_natural_layout_distances (t : hipfftIOType) (l0 : Nat)
    (rest : List Nat) (hwf : t.WF) (hrank : rest.length ≤ 2) :
    (t.is_real_to_complex = true →
      recalcSlotDists l0 rest (planManyArrayTypes t).1 (planManyArrayTypes t).2
          .inplace true =
        some (2 * (1 + l0 / 2) * rest.prod, (1 + l0 / 2) * rest.prod) ∧
      recalcSlotDists l0 rest (planManyArrayTypes t).1 (planManyArrayTypes t).2
          .notinplace true =
        some (l0 * rest.prod, (1 + l0 / 2) * rest.prod)) ∧
    (t.is_complex_to_real = true →
      recalcSlotDists l0 rest (planManyArrayTypes t).1 (planManyArrayTypes t).2
          .inplace false =
        some ((1 + l0 / 2) * rest.prod, 2 * (1 + l0 / 2) * rest.prod) ∧
      recalcSlotDists l0 rest (planManyArrayTypes t).1 (planManyArrayTypes t).2
          .notinplace false =
        some ((1 + l0 / 2) * rest.prod, l0 * rest.prod)) ∧
    (t.is_complex_to_complex = true →
      ∀ (pl : rocfft_placement) (fwd : Bool),
        recalcSlotDists l0 rest (planManyArrayTypes t).1 (planManyArrayTypes t).2
            pl fwd =
          some (l0 * rest.prod, l0 * rest.prod)) := by
  obtain ⟨-, -, hnot⟩ := hwf
  refine ⟨?_, ?_, ?_⟩
  · intro hr
    simp [planManyArrayTypes, hr, recalcSlotDists, distLoop_eq_mul_prod]
  · intro hc
    have hr : t.is_real_to_complex = false := by
      cases h : t.is_real_to_complex
      · rfl
      · exact absurd ⟨h, hc⟩ hnot
    simp [planManyArrayTypes, hr, hc, recalcSlotDists, distLoop_eq_mul_prod]
  · intro hcc pl fwd
    simp only [hipfftIOType.is_complex_to_complex, Bool.and_eq_true,
      Bool.not_eq_true'] at hcc
    cases pl <;> cases fwd <;>
      simp [planManyArrayTypes, hcc.1, hcc.2, recalcSlotDists, distLoop_eq_mul_prod]

/-- Witness for C3: a rank-2 real-to-complex spec with fastest length 5 and
remaining length 3 yields in-place distances (12*3, 3*3) and out-of-place
distances (5*3, 3*3). -/
theorem C3_natural_layout_distances_witness :
    ((hipfftIOType.mk .HIP_R_32F .HIP_C_32F).WF ∧
      ([3] : List Nat).length ≤ 2 ∧
      (hipfftIOType.mk .HIP_R_32F .HIP_C_32F).is_real_to_complex = true) ∧
    (recalcSlotDists 5 [3]
        (planManyArrayTypes ⟨.HIP_R_32F, .HIP_C_32F⟩).1
        (planManyArrayTypes ⟨.HIP_R_32F, .HIP_C_32F⟩).2 .inplace true =
      some (2 * (1 + 5 / 2) * ([3] : List Nat).prod,
        (1 + 5 / 2) * ([3] : List Nat).prod) ∧
    recalcSlotDists 5 [3]
        (planManyArrayTypes ⟨.HIP_R_32F, .HIP_C_32F⟩).1
        (planManyArrayTypes ⟨.HIP_R_32F, .HIP_C_32F⟩).2 .notinplace true =
      some (5 * ([3] : List Nat).prod, (1 + 5 / 2) * ([3] : List Nat).prod)) :=
  ⟨⟨⟨by decide, by decide, by decide⟩, by decide, by decide⟩,
    (C3_natural_layout_distances ⟨.HIP_R_32F, .HIP_C_32F⟩ 5 [3]
      ⟨by decide, by decide, by decide⟩ (by decide)).1 (by decide)⟩

/-- A mismatched callback kind makes the validate-and-store switch reject. -/
theorem setCbFields_none_of_mismatch (p : hipfftHandle_t) (cbs data : Nat)
    (cbtype : hipfftXtCallbackType) (hm : cbMatches cbtype p.type = false) :
    setCbFields p cbs data cbtype = none := by
  cases cbtype <;>
    simp only [cbMatches, Bool.and_eq_false_iff, beq_iff_eq,
      beq_eq_false_iff_ne, ne_eq, Bool.not_eq_true, Bool.not_eq_false,
      Bool.not_eq_true', Bool.not_eq_false'] at hm <;>
    simp only [setCbFields] <;>
    first
      | rfl
      | (rw [if_pos] ; tauto)

/-- C6: a callback kind whose precision or real/complex role does not match
the plan's resolved type (including the undefined kind) makes
hipfftXtSetCallback return HIPFFT_INVALID_VALUE with the handle — previously
set callback pointers, data pointers, shared-memory hints and the
ExecutionInfo bindings — completely unchanged; the backend registration calls
are never reached. -/
theorem C6_setcallback_mismatch_rejected (p : hipfftHandle_t)
    (callbacks callbackData : Nat) (cbtype : hipfftXtCallbackType)
    (load_reg_ok store_reg_ok : Bool)
    (hm : cbMatches cbtype p.type = false) :
    hipfftXtSetCallback (some p) callbacks cbtype callbackData
      load_reg_ok store_reg_ok = (.HIPFFT_INVALID_VALUE, some p) := by
  simp [hipfftXtSetCallback,
    setCbFields_none_of_mismatch p callbacks callbackData cbtype hm]

/-- Witness for C6: a double-precision complex load kind on a fresh
single-precision complex-to-complex plan is rejected and the handle is
returned unchanged. -/
theorem C6_setcallback_mismatch_rejected_witness :
    cbMatches .HIPFFT_CB_LD_COMPLEX_DOUBLE ({} : hipfftHandle_t).type = false ∧
    hipfftXtSetCallback (some {}) 5 .HIPFFT_CB_LD_COMPLEX_DOUBLE 6 true true =
      (.HIPFFT_INVALID_VALUE, some {}) :=
  ⟨by decide,
    C6_setcallback_mismatch_rejected {} 5 6 .HIPFFT_CB_LD_COMPLEX_DOUBLE
      true true (by decide)⟩

/-- C7: a matching callback kind, with both backend registrations
succeeding, stores the callback and data pointers on the side the kind
selects, resets that side's shared-memory hint to zero, and re-registers
both the load and the store binding (the untouched side included) with the
ExecutionInfo handle; every other handle field is unchanged. -/
theorem C7_setcallback_match_stores_and_reregisters (p : hipfftHandle_t)
    (cbs data : Nat) (cbtype : hipfftXtCallbackType)
    (hm : cbMatches cbtype p.type = true) :
    (cbIsLoad cbtype = true →
      hipfftXtSetCallback (some p) cbs cbtype data true true =
        (.HIPFFT_SUCCESS, some { p with
          load_callback_ptrs := cbs, load_callback_data := data,
          load_callback_lds_bytes := 0,
          info := { p.info with
            load_binding := ⟨cbs, data, 0⟩,
            store_binding := ⟨p.store_callback_ptrs, p.store_callback_data,
              p.store_callback_lds_bytes⟩ } })) ∧
    (cbIsLoad cbtype = false →
      hipfftXtSetCallback (some p) cbs cbtype data true true =
        (.HIPFFT_SUCCESS, some { p with
          store_callback_ptrs := cbs, store_callback_data := data,
          store_callback_lds_bytes := 0,
          info := { p.info with
            load_binding := ⟨p.load_callback_ptrs, p.load_callback_data,
              p.load_callback_lds_bytes⟩,
            store_binding := ⟨cbs, data, 0⟩ } })) := by
  cases cbtype <;>
    first
      | exact absurd hm (by decide)
      | (simp only [cbMatches, Bool.and_eq_true, beq_iff_eq, Bool.not_eq_true',
          Bool.not_eq_false'] at hm ;
         refine ⟨?_, ?_⟩ <;> intro hl <;>
         simp_all [hipfftXtSetCallback, setCbFields, registerBothCallbacks,
           cbIsLoad])

/-- Witness for C7: a single-precision real load kind on a real-to-complex
plan stores pointers 5/6, zeroes the load shared-memory hint, and registers
both bindings. -/
theorem C7_setcallback_match_stores_and_reregisters_witness :
    cbMatches .HIPFFT_CB_LD_REAL
      ({ type := ⟨.HIP_R_32F, .HIP_C_32F⟩ } : hipfftHandle_t).type = true ∧
    cbIsLoad .HIPFFT_CB_LD_REAL = true ∧
    hipfftXtSetCallback (some { type := ⟨.HIP_R_32F, .HIP_C_32F⟩ }) 5
        .HIPFFT_CB_LD_REAL 6 true true =
      (.HIPFFT_SUCCESS,
        some { type := ⟨.HIP_R_32F, .HIP_C_32F⟩,
               load_callback_ptrs := 5, load_callback_data := 6,
               load_callback_lds_bytes := 0,
               info := { load_binding := ⟨5, 6, 0⟩,
                         store_binding := ⟨0, 0, 0⟩ } }) :=
  ⟨by decide, by decide,
    (C7_setcallback_match_stores_and_reregisters
      { type := ⟨.HIP_R_32F, .HIP_C_32F⟩ } 5 6 .HIPFFT_CB_LD_REAL
      (by decide)).1 (by decide)⟩

/-- C10: hipfftXtSetCallbackSharedSize accepts every defined callback kind on
every plan — no precision or role validation, unlike hipfftXtSetCallback —
setting the selected side's shared-memory hint to the given byte count and
re-registering both callback bindings; only the undefined kind is rejected
with HIPFFT_INVALID_VALUE, leaving the handle unchanged. -/
theorem C10_sharedsize_no_validation (p : hipfftHandle_t)
    (cbtype : hipfftXtCallbackType) (sharedSize : Nat) :
    (cbtype ≠ .HIPFFT_CB_UNDEFINED → cbIsLoad cbtype = true →
      hipfftXtSetCallbackSharedSize (some p) cbtype sharedSize true true =
        (.HIPFFT_SUCCESS, some { p with
          load_callback_lds_bytes := sharedSize,
          info := { p.info with
            load_binding := ⟨p.load_callback_ptrs, p.load_callback_data,
              sharedSize⟩,
            store_binding := ⟨p.store_callback_ptrs, p.store_callback_data,
              p.store_callback_lds_bytes⟩ } })) ∧
    (cbtype ≠ .HIPFFT_CB_UNDEFINED → cbIsLoad cbtype = false →
      hipfftXtSetCallbackSharedSize (some p) cbtype sharedSize true true =
        (.HIPFFT_SUCCESS, some { p with
          store_callback_lds_bytes := sharedSize,
          info := { p.info with
            load_binding := ⟨p.load_callback_ptrs, p.load_callback_data,
              p.load_callback_lds_bytes⟩,
            store_binding := ⟨p.store_callback_ptrs, p.store_callback_data,
              sharedSize⟩ } })) ∧
    hipfftXtSetCallbackSharedSize (some p) .HIPFFT_CB_UNDEFINED sharedSize
        true true = (.HIPFFT_INVALID_VALUE, some p) := by
  refine ⟨?_, ?_, rfl⟩ <;> intro hne hl <;> cases cbtype <;>
    simp_all [hipfftXtSetCallbackSharedSize, registerBothCallbacks, cbIsLoad]

/-- Witness for C10: a double-precision complex store kind — which
hipfftXtSetCallback would reject on this fresh single-precision plan — is
accepted and sets the store hint to 64. -/
theorem C10_sharedsize_no_validation_witness :
    (hipfftXtCallbackType.HIPFFT_CB_ST_COMPLEX_DOUBLE ≠ .HIPFFT_CB_UNDEFINED ∧
      cbIsLoad .HIPFFT_CB_ST_COMPLEX_DOUBLE = false ∧
      cbMatches .HIPFFT_CB_ST_COMPLEX_DOUBLE ({} : hipfftHandle_t).type = false) ∧
    hipfftXtSetCallbackSharedSize (some {}) .HIPFFT_CB_ST_COMPLEX_DOUBLE 64
        true true =
      (.HIPFFT_SUCCESS, some { ({} : hipfftHandle_t) with
        store_callback_lds_bytes := 64,
        info := { ({} : hipfftHandle_t).info with
          load_binding := ⟨0, 0, 0⟩, store_binding := ⟨0, 0, 64⟩ } }) :=
  ⟨⟨by decide, by decide, by decide⟩,
    (C10_sharedsize_no_validation {} .HIPFFT_CB_ST_COMPLEX_DOUBLE 64).2.1
      (by decide) (by decide)⟩

/-- C8 counterexample: on a plan whose ExecutionInfo holds a bound
self-owned workspace (pointer 5, 64 bytes), hipfftSetWorkArea with a null
pointer frees the buffer and clears the owns flag but leaves the stale
work-buffer binding in place — the binding is not cleared as the claim
states. -/
theorem C8_counterexample :
    (hipfftSetWorkArea
      { workBuffer := 5, workBufferSize := 64, workBufferNeedsFree := true,
        info := { work_buffer := some (5, 64) } } 0 true).2.2 = some 5 ∧
    (hipfftSetWorkArea
      { workBuffer := 5, workBufferSize := 64, workBufferNeedsFree := true,
        info := { work_buffer := some (5, 64) } } 0 true).2.1.info.work_buffer =
      some (5, 64) ∧
    some ((5 : Nat), (64 : Nat)) ≠ none := by decide

/-- C8 (amended): hipfftSetWorkArea frees any existing self-owned workspace
buffer, marks the workspace as not self-owned, and — when the supplied
pointer is non-null and the backend binding call succeeds — binds it to the
ExecutionInfo handle for the previously computed workspace size; when the
supplied pointer is null the ExecutionInfo binding is left untouched (only
the owns flag changes), so a previously bound buffer stays bound. -/
theorem C8_setworkarea (p : hipfftHandle_t) (workArea : Nat) :
    (hipfftSetWorkArea p workArea true).1 = .HIPFFT_SUCCESS ∧
    (hipfftSetWorkArea p workArea true).2.2 =
      (if p.workBuffer ≠ 0 ∧ p.workBufferNeedsFree = true
        then some p.workBuffer else none) ∧
    (hipfftSetWorkArea p workArea true).2.1.workBufferNeedsFree = false ∧
    (workArea ≠ 0 →
      (hipfftSetWorkArea p workArea true).2.1.info.work_buffer =
        some (workArea, p.workBufferSize)) ∧
    (workArea = 0 →
      (hipfftSetWorkArea p workArea true).2.1 =
        { p with workBufferNeedsFree := false }) := by
  by_cases hz : workArea = 0 <;>
    simp [hipfftSetWorkArea, hz]

/-- Witness for C8 with a non-null caller buffer 9 on a plan owning buffer 5
of recorded size 64. -/
theorem C8_setworkarea_witness :
    ((hipfftSetWorkArea
        { workBuffer := 5, workBufferSize := 64, workBufferNeedsFree := true } 9
        true).1 = .HIPFFT_SUCCESS ∧
      (hipfftSetWorkArea
        { workBuffer := 5, workBufferSize := 64, workBufferNeedsFree := true } 9
        true).2.2 =
        (if (5 : Nat) ≠ 0 ∧ true = true then some (5 : Nat) else none) ∧
      (hipfftSetWorkArea
        { workBuffer := 5, workBufferSize := 64, workBufferNeedsFree := true } 9
        true).2.1.workBufferNeedsFree = false) ∧
    (hipfftSetWorkArea
        { workBuffer := 5, workBufferSize := 64, workBufferNeedsFree := true } 9
        true).2.1.info.work_buffer = some (9, 64) :=
  ⟨⟨(C8_setworkarea
      { workBuffer := 5, workBufferSize := 64, workBufferNeedsFree := true } 9).1,
    by decide,
    (C8_setworkarea
      { workBuffer := 5, workBufferSize := 64, workBufferNeedsFree := true }
      9).2.2.1⟩,
    (C8_setworkarea
      { workBuffer := 5, workBufferSize := 64, workBufferNeedsFree := true }
      9).2.2.2.1 (by decide)⟩

theorem querySlotSize_eq_some (b : PlanBackend)
    (hwsz : ∀ id, b.work_size_ok id = true) (slot : Option Nat) (acc : Nat) :
    ∃ v, querySlotSize b slot acc = some v := by
  cases slot <;> simp [querySlotSize, hwsz]

theorem maxWorkSize_eq_some (b : PlanBackend) (iotype : hipfftIOType)
    (p : hipfftHandle_t) (hwsz : ∀ id, b.work_size_ok id = true) :
    ∃ w, maxWorkSize b iotype p = some w := by
  unfold maxWorkSize
  obtain ⟨a1, ha1⟩ := querySlotSize_eq_some b hwsz p.ip_forward 0
  obtain ⟨a2, ha2⟩ := querySlotSize_eq_some b hwsz p.op_forward a1
  by_cases hc : iotype.is_complex_to_real = true
  · by_cases hr : iotype.is_real_to_complex = true
    · exact ⟨0, by simp [hc, hr]⟩
    · obtain ⟨a3, ha3⟩ := querySlotSize_eq_some b hwsz p.ip_inverse 0
      obtain ⟨a4, ha4⟩ := querySlotSize_eq_some b hwsz p.op_inverse a3
      exact ⟨a4, by simp [hc, hr, ha3, ha4]⟩
  · by_cases hr : iotype.is_real_to_complex = true
    · exact ⟨a2, by simp [hc, hr, ha1, ha2]⟩
    · obtain ⟨a3, ha3⟩ := querySlotSize_eq_some b hwsz p.ip_inverse a2
      obtain ⟨a4, ha4⟩ := querySlotSize_eq_some b hwsz p.op_inverse a3
      exact ⟨a4, by simp [hc, hr, ha1, ha2, ha3, ha4]⟩

theorem descLayoutOK_true (b : PlanBackend)
    (hlayout : ∀ pl f, b.set_data_layout_ok pl f = true)
    (desc : Option (rocfft_array_type × rocfft_array_type)) (re_calc : Bool) :
    descLayoutOK b desc re_calc = true := by
  cases desc with
  | none => rfl
  | some q =>
    simp only [descLayoutOK, List.all_eq_true]
    intro s hs
    exact hlayout s.1 s.2

theorem makePlanWorkspacePhase_ip_forward (b : PlanBackend) (iotype : hipfftIOType)
    (p : hipfftHandle_t) :
    (makePlanWorkspacePhase b iotype p).2.ip_forward = p.ip_forward := by
  unfold makePlanWorkspacePhase
  cases hmw : maxWorkSize b iotype { p with type := iotype } with
  | none => simp [hmw]
  | some w =>
    simp only [hmw]
    simp only [apply_ite Prod.snd, apply_ite hipfftHandle_t.ip_forward]
    simp

theorem makePlanWorkspacePhase_result (b : PlanBackend) (iotype : hipfftIOType)
    (hfree : b.free_ok = true) (hmalloc : b.malloc_ok = true)
    (hswb : b.set_work_buffer_ok = true)
    (hwsz : ∀ id, b.work_size_ok id = true) (p : hipfftHandle_t) :
    (makePlanWorkspacePhase b iotype p).1 = .HIPFFT_SUCCESS := by
  unfold makePlanWorkspacePhase
  obtain ⟨w, hmw⟩ := maxWorkSize_eq_some b iotype { p with type := iotype } hwsz
  simp only [hmw, apply_ite Prod.fst]
  simp [hfree, hmalloc, hswb]

theorem createLoop_r2c (b : PlanBackend) (iotype : hipfftIOType)
    (p0 : hipfftHandle_t) (hr : iotype.is_real_to_complex = true) :
    createLoop b iotype p0 =
      ({ p0 with
          ip_forward := if b.create_ok .inplace .real_forward
            then some (b.plan_id .inplace .real_forward) else none,
          op_forward := if b.create_ok .notinplace .real_forward
            then some (b.plan_id .notinplace .real_forward) else none },
        (if b.create_ok .inplace .real_forward then 1 else 0) +
          (if b.create_ok .notinplace .real_forward then 1 else 0)) := by
  cases hv1 : b.create_ok .inplace .real_forward <;>
    cases hv2 : b.create_ok .notinplace .real_forward <;>
      simp [createLoop, hipfftIOType.transform_types, hr, hv1, hv2,
        roc_fft_check_plan_create, hipfftHandle_t.setSlot, hipfftIOType.is_forward]

theorem makePlanWorkspacePhase_op_forward (b : PlanBackend) (iotype : hipfftIOType)
    (p : hipfftHandle_t) :
    (makePlanWorkspacePhase b iotype p).2.op_forward = p.op_forward := by
  unfold makePlanWorkspacePhase
  cases hmw : maxWorkSize b iotype { p with type := iotype } with
  | none => simp [hmw]
  | some w =>
    simp only [hmw]
    simp only [apply_ite Prod.snd, apply_ite hipfftHandle_t.op_forward]
    simp

theorem makePlanWorkspacePhase_ip_inverse (b : PlanBackend) (iotype : hipfftIOType)
    (p : hipfftHandle_t) :
    (makePlanWorkspacePhase b iotype p).2.ip_inverse = p.ip_inverse := by
  unfold makePlanWorkspacePhase
  cases hmw : maxWorkSize b iotype { p with type := iotype } with
  | none => simp [hmw]
  | some w =>
    simp only [hmw]
    simp only [apply_ite Prod.snd, apply_ite hipfftHandle_t.ip_inverse]
    simp

theorem makePlanWorkspacePhase_op_inverse (b : PlanBackend) (iotype : hipfftIOType)
    (p : hipfftHandle_t) :
    (makePlanWorkspacePhase b iotype p).2.op_inverse = p.op_inverse := by
  unfold makePlanWorkspacePhase
  cases hmw : maxWorkSize b iotype { p with type := iotype } with
  | none => simp [hmw]
  | some w =>
    simp only [hmw]
    simp only [apply_ite Prod.snd, apply_ite hipfftHandle_t.op_inverse]
    simp

theorem createLoop_c2r (b : PlanBackend) (iotype : hipfftIOType)
    (p0 : hipfftHandle_t) (hr : iotype.is_real_to_complex = false)
    (hc : iotype.is_complex_to_real = true) :
    createLoop b iotype p0 =
      ({ p0 with
          ip_inverse := if b.create_ok .inplace .real_inverse
            then some (b.plan_id .inplace .real_inverse) else none,
          op_inverse := if b.create_ok .notinplace .real_inverse
            then some (b.plan_id .notinplace .real_inverse) else none },
        (if b.create_ok .inplace .real_inverse then 1 else 0) +
          (if b.create_ok .notinplace .real_inverse then 1 else 0)) := by
  cases hv1 : b.create_ok .inplace .real_inverse <;>
    cases hv2 : b.create_ok .notinplace .real_inverse <;>
      simp [createLoop, hipfftIOType.transform_types, hr, hc, hv1, hv2,
        roc_fft_check_plan_create, hipfftHandle_t.setSlot, hipfftIOType.is_forward]

theorem createLoop_c2c (b : PlanBackend) (iotype : hipfftIOType)
    (p0 : hipfftHandle_t) (hr : iotype.is_real_to_complex = false)
    (hc : iotype.is_complex_to_real = false) :
    createLoop b iotype p0 =
      ({ p0 with
          ip_forward := if b.create_ok .inplace .complex_forward
            then some (b.plan_id .inplace .complex_forward) else none,
          op_forward := if b.create_ok .notinplace .complex_forward
            then some (b.plan_id .notinplace .complex_forward) else none,
          ip_inverse := if b.create_ok .inplace .complex_inverse
            then some (b.plan_id .inplace .complex_inverse) else none,
          op_inverse := if b.create_ok .notinplace .complex_inverse
            then some (b.plan_id .notinplace .complex_inverse) else none },
        ((if b.create_ok .inplace .complex_forward then 1 else 0) +
          (if b.create_ok .notinplace .complex_forward then 1 else 0)) +
          ((if b.create_ok .inplace .complex_inverse then 1 else 0) +
            (if b.create_ok .notinplace .complex_inverse then 1 else 0))) := by
  cases hv1 : b.create_ok .inplace .complex_forward <;>
    cases hv2 : b.create_ok .notinplace .complex_forward <;>
      cases hv3 : b.create_ok .inplace .complex_inverse <;>
        cases hv4 : b.create_ok .notinplace .complex_inverse <;>
          simp [createLoop, hipfftIOType.transform_types, hr, hc, hv1, hv2, hv3,
            hv4, roc_fft_check_plan_create, hipfftHandle_t.setSlot,
            hipfftIOType.is_forward]

theorem forall_placement (P : rocfft_placement → Prop) :
    (∀ pl, P pl) ↔ P .inplace ∧ P .notinplace :=
  ⟨fun h => ⟨h _, h _⟩, fun h pl => by cases pl; exacts [h.1, h.2]⟩

/-- C4: for every make-plan call on a fresh handle, with the opaque
backend's checked bookkeeping calls (descriptor layout, work-size query,
free/malloc, work-buffer bind) succeeding: backend plan creation is
attempted for every (placement, direction) slot of the transform's direction
set without aborting on a per-slot failure, a slot ends populated exactly
when its creation succeeded (a failed slot is left null), the call fails
with the no-valid-plan-configuration result (ParseError) exactly when zero
slots were created — no slot then remains populated — and otherwise the call
succeeds even though some slots may be empty. -/
theorem C4_makeplan_partial_failure (b : PlanBackend) (iotype : hipfftIOType)
    (p0 : hipfftHandle_t)
    (desc : Option (rocfft_array_type × rocfft_array_type)) (re_calc : Bool)
    (h0 : p0.ip_forward = none ∧ p0.op_forward = none ∧
      p0.ip_inverse = none ∧ p0.op_inverse = none)
    (hlayout : ∀ pl f, b.set_data_layout_ok pl f = true)
    (hwsz : ∀ id, b.work_size_ok id = true)
    (hfree : b.free_ok = true) (hmalloc : b.malloc_ok = true)
    (hswb : b.set_work_buffer_ok = true) :
    (∀ t ∈ iotype.transform_types, ∀ pl : rocfft_placement,
      (hipfftMakePlan_internal b iotype p0 desc re_calc).2.getSlot pl
          (hipfftIOType.is_forward t) =
        (if b.create_ok pl t then some (b.plan_id pl t) else none)) ∧
    ((hipfftMakePlan_internal b iotype p0 desc re_calc).1 = .HIPFFT_PARSE_ERROR ↔
      ∀ t ∈ iotype.transform_types, ∀ pl : rocfft_placement,
        b.create_ok pl t = false) ∧
    ((hipfftMakePlan_internal b iotype p0 desc re_calc).1 = .HIPFFT_PARSE_ERROR →
      (hipfftMakePlan_internal b iotype p0 desc re_calc).2.ip_forward = none ∧
      (hipfftMakePlan_internal b iotype p0 desc re_calc).2.op_forward = none ∧
      (hipfftMakePlan_internal b iotype p0 desc re_calc).2.ip_inverse = none ∧
      (hipfftMakePlan_internal b iotype p0 desc re_calc).2.op_inverse = none) ∧
    ((hipfftMakePlan_internal b iotype p0 desc re_calc).1 ≠ .HIPFFT_PARSE_ERROR →
      (hipfftMakePlan_internal b iotype p0 desc re_calc).1 = .HIPFFT_SUCCESS) := by
  obtain ⟨h1, h2, h3, h4⟩ := h0
  have hgate := descLayoutOK_true b hlayout desc re_calc
  by_cases hr : iotype.is_real_to_complex = true
  · cases hv1 : b.create_ok .inplace .real_forward <;>
      cases hv2 : b.create_ok .notinplace .real_forward <;>
        simp_all [hipfftMakePlan_internal, createLoop_r2c b iotype p0 hr,
          hipfftIOType.transform_types, hipfftHandle_t.getSlot,
          hipfftIOType.is_forward, forall_placement,
          makePlanWorkspacePhase_result b iotype hfree hmalloc hswb hwsz,
          makePlanWorkspacePhase_ip_forward, makePlanWorkspacePhase_op_forward,
          makePlanWorkspacePhase_ip_inverse, makePlanWorkspacePhase_op_inverse]
  · rw [Bool.not_eq_true] at hr
    by_cases hc : iotype.is_complex_to_real = true
    · cases hv1 : b.create_ok .inplace .real_inverse <;>
        cases hv2 : b.create_ok .notinplace .real_inverse <;>
          simp_all [hipfftMakePlan_internal, createLoop_c2r b iotype p0 hr hc,
            hipfftIOType.transform_types, hipfftHandle_t.getSlot,
            hipfftIOType.is_forward, forall_placement,
            makePlanWorkspacePhase_result b iotype hfree hmalloc hswb hwsz,
            makePlanWorkspacePhase_ip_forward, makePlanWorkspacePhase_op_forward,
            makePlanWorkspacePhase_ip_inverse, makePlanWorkspacePhase_op_inverse]
    · rw [Bool.not_eq_true] at hc
      cases hv1 : b.create_ok .inplace .complex_forward <;>
        cases hv2 : b.create_ok .notinplace .complex_forward <;>
          cases hv3 : b.create_ok .inplace .complex_inverse <;>
            cases hv4 : b.create_ok .notinplace .complex_inverse <;>
              simp_all [hipfftMakePlan_internal, createLoop_c2c b iotype p0 hr hc,
                hipfftIOType.transform_types, hipfftHandle_t.getSlot,
                hipfftIOType.is_forward, forall_placement,
                makePlanWorkspacePhase_result b iotype hfree hmalloc hswb hwsz,
                makePlanWorkspacePhase_ip_forward, makePlanWorkspacePhase_op_forward,
                makePlanWorkspacePhase_ip_inverse, makePlanWorkspacePhase_op_inverse]

/-- Witness for C4: a backend that creates in-place plans but fails
out-of-place ones (all checked bookkeeping calls succeeding), on a fresh
complex-to-complex handle through the descriptor-less 1d path; the call
succeeds rather than failing with ParseError. -/
theorem C4_makeplan_partial_failure_witness :
    (({} : hipfftHandle_t).ip_forward = none ∧
      ({} : hipfftHandle_t).op_forward = none ∧
      ({} : hipfftHandle_t).ip_inverse = none ∧
      ({} : hipfftHandle_t).op_inverse = none) ∧
    ((hipfftMakePlan_internal
        { create_ok := fun pl _ => pl = .inplace, plan_id := fun _ _ => 7,
          work_size := fun _ => 0 } {} {} none true).1 ≠ .HIPFFT_PARSE_ERROR →
      (hipfftMakePlan_internal
        { create_ok := fun pl _ => pl = .inplace, plan_id := fun _ _ => 7,
          work_size := fun _ => 0 } {} {} none true).1 = .HIPFFT_SUCCESS) ∧
    ¬(hipfftMakePlan_internal
        { create_ok := fun pl _ => pl = .inplace, plan_id := fun _ _ => 7,
          work_size := fun _ => 0 } {} {} none true).1 = .HIPFFT_PARSE_ERROR :=
  ⟨⟨rfl, rfl, rfl, rfl⟩,
    (C4_makeplan_partial_failure
      { create_ok := fun pl _ => pl = .inplace, plan_id := fun _ _ => 7,
        work_size := fun _ => 0 } {} {} none true ⟨rfl, rfl, rfl, rfl⟩
      (fun _ _ => rfl) (fun _ => rfl) rfl rfl rfl).2.2.2,
    fun h =>
      by simpa using
        ((C4_makeplan_partial_failure
          { create_ok := fun pl _ => pl = .inplace, plan_id := fun _ _ => 7,
            work_size := fun _ => 0 } {} {} none true ⟨rfl, rfl, rfl, rfl⟩
          (fun _ _ => rfl) (fun _ => rfl) rfl rfl rfl).2.1.mp h .complex_forward
          (by simp
            [hipfftIOType.transform_types, hipfftIOType.is_real_to_complex,
              hipfftIOType.is_complex_to_real]) .inplace)⟩
